import Mathlib

/-!
Verification of the tomato pomodoro timer (React/TypeScript source).

The embedding below models the core state and handlers of the main variant
(`src/unnamed/part_001`, `function App`): the drift-corrected countdown
(interval callback and visibility handler), the completion handler and mode
switching, pause/resume via `toggleTimer` plus the `[isRunning]` effect,
`resetTimer`, `updateSettings`, the goal-achievement effect, and the two
date-key functions (`getTodayDate` via `toISOString`, and the calendar's
`getDateKey` built from local date getters).

JavaScript `Math.floor(a / b)` on integers with `b > 0` is floor division,
modelled by `Int.fdiv`.  Timestamps are milliseconds since the epoch as `Int`.
-/

/-- `type TimerMode = "focus" | "shortBreak" | "longBreak"`. -/
inductive TimerMode where
  | focus
  | shortBreak
  | longBreak
deriving DecidableEq

/-- `interface TimerSettings` of `part_001`: minutes per mode, auto-start
flags, goal in hours, and the cycle display count. -/
structure TimerSettings where
  focus : Int
  shortBreak : Int
  longBreak : Int
  autoStartBreaks : Bool
  autoStartFocus : Bool
  goalTime : Int
  cycleCount : Int
deriving DecidableEq

/-- `DEFAULT_SETTINGS` of `part_001`. -/
def DEFAULT_SETTINGS : TimerSettings :=
  { focus := 25, shortBreak := 5, longBreak := 15,
    autoStartBreaks := true, autoStartFocus := false,
    goalTime := 12, cycleCount := 4 }

/-- The TypeScript indexed access `settings[mode]` used by `switchMode` and
`updateSettings`. -/
def settingsFor (s : TimerSettings) : TimerMode → Int
  | .focus => s.focus
  | .shortBreak => s.shortBreak
  | .longBreak => s.longBreak

/-- The `useState` cells of `App` in `part_001` that the timer logic reads and
writes.  `startTime` is `number | null`, `pausedTime` the frozen remaining
seconds, `pomodoroCount` and `totalFocusTime` the daily counters, and
`goalAchieved` the one-shot goal latch. -/
structure AppState where
  mode : TimerMode
  settings : TimerSettings
  timeLeft : Int
  initialTime : Int
  isRunning : Bool
  startTime : Option Int
  pausedTime : Int
  pomodoroCount : Int
  totalFocusTime : Int
  goalAchieved : Bool
deriving DecidableEq

/-- Initial state of `App` (`useState` initialisers): focus mode, duration
`settings.focus * 60`, not running, no anchor, `pausedTime = 0`, and the daily
counters loaded from the persisted history (`getTodayData`). -/
def initState (ts : TimerSettings) (count total : Int) (ga : Bool) : AppState :=
  { mode := .focus, settings := ts,
    timeLeft := ts.focus * 60, initialTime := ts.focus * 60,
    isRunning := false, startTime := none, pausedTime := 0,
    pomodoroCount := count, totalFocusTime := total, goalAchieved := ga }

/-- The remaining-time formula shared by the interval callback (lines 231-233)
and the visibility handler (lines 142-144):
`Math.max(0, initialTime - Math.floor((now - startTime) / 1000))`. -/
def remaining (durationSeconds anchorStartTime now : Int) : Int :=
  max 0 (durationSeconds - Int.fdiv (now - anchorStartTime) 1000)

/-- `switchMode` body, parameterised over the settings record the closure
captured (`const newTime = settings[newMode] * 60`) and the state the React
store currently holds.  Sets mode, `timeLeft`, `initialTime`, `pausedTime` to
the new full duration, `isRunning := autoStart`, and the anchor to `now` when
auto-starting, `null` otherwise. -/
def switchModeCore (settings : TimerSettings) (st : AppState)
    (newMode : TimerMode) (autoStart : Bool) (now : Int) : AppState :=
  let newTime := settingsFor settings newMode * 60
  { st with mode := newMode, timeLeft := newTime, initialTime := newTime,
            pausedTime := newTime, isRunning := autoStart,
            startTime := if autoStart then some now else none }

/-- `switchMode(newMode, autoStart)` invoked directly on the current state. -/
def switchMode (s : AppState) (newMode : TimerMode) (autoStart : Bool)
    (now : Int) : AppState :=
  switchModeCore s.settings s newMode autoStart now

/-- `handleTimerComplete` (lines 255-279).  `snapshot` is the render closure
the handler captured (`mode`, `pomodoroCount`, `settings`); `store` is the
state its absolute `setState` calls are applied to.  Every invocation fires
the completion notification path (`flashTitle`, `showNotification`,
`playSound`) unconditionally, counted as one emitted notification.  In focus
mode it sets `pomodoroCount` to `snapshot.pomodoroCount + 1` and switches to
`longBreak` when that count is divisible by 4, else `shortBreak`; in a break
mode it switches back to focus. -/
def handleTimerComplete (snapshot store : AppState) (now : Int) :
    AppState × Nat :=
  let store1 := { store with isRunning := false, startTime := none }
  let final :=
    if snapshot.mode = .focus then
      let newCount := snapshot.pomodoroCount + 1
      let store2 := { store1 with pomodoroCount := newCount }
      if newCount % 4 = 0 then
        switchModeCore snapshot.settings store2 .longBreak
          snapshot.settings.autoStartBreaks now
      else
        switchModeCore snapshot.settings store2 .shortBreak
          snapshot.settings.autoStartBreaks now
    else
      switchModeCore snapshot.settings store1 .focus
        snapshot.settings.autoStartFocus now
  (final, 1)

/-- `handleVisibilityChange` (lines 139-152), also the shape of one interval
tick for `timeLeft` (lines 231-245): when running with an anchor, recompute
`timeLeft` from timestamps alone and dispatch `handleTimerComplete` when the
recomputed value is zero.  Returns the new state and the number of completion
notifications fired. -/
def handleVisibilityChange (s : AppState) (now : Int) : AppState × Nat :=
  if s.isRunning then
    match s.startTime with
    | some a =>
      let newTimeLeft := remaining s.initialTime a now
      let s' := { s with timeLeft := newTimeLeft }
      if newTimeLeft = 0 then handleTimerComplete s s' now else (s', 0)
    | none => (s, 0)
  else (s, 0)

/-- The `[isRunning]` effect, not-running branch (lines 217-221): freeze
`pausedTime` at the current `timeLeft` and clear the anchor.  Reached by
`toggleTimer` flipping `isRunning` to `false`. -/
def pauseTimer (s : AppState) : AppState :=
  { s with isRunning := false, pausedTime := s.timeLeft, startTime := none }

/-- The `[isRunning]` effect, running branch (lines 213-216): set the anchor
to `Date.now() - (initialTime - timeLeft) * 1000`.  Reached by `toggleTimer`
flipping `isRunning` to `true`. -/
def resumeTimer (s : AppState) (now : Int) : AppState :=
  let elapsedSeconds := s.initialTime - s.timeLeft
  { s with isRunning := true, startTime := some (now - elapsedSeconds * 1000) }

/-- `resetTimer` (lines 414-419). -/
def resetTimer (s : AppState) : AppState :=
  { s with isRunning := false, timeLeft := s.initialTime,
           startTime := none, pausedTime := s.initialTime }

/-- `updateSettings` (lines 421-433): unconditionally install the new
settings, reload the full duration for the current mode into `timeLeft`,
`initialTime` and `pausedTime`, clear the anchor, and reset the goal latch
when `goalTime` changed.  It does not touch `isRunning` and performs no
validation. -/
def updateSettings (s : AppState) (newSettings : TimerSettings) : AppState :=
  let newTime := settingsFor newSettings s.mode * 60
  { s with settings := newSettings,
           timeLeft := newTime, initialTime := newTime,
           startTime := none, pausedTime := newTime,
           goalAchieved :=
             if newSettings.goalTime ≠ s.settings.goalTime then false
             else s.goalAchieved }

/-- The goal-achievement effect (lines 161-209):
`if (!goalAchieved && totalFocusTime >= settings.goalTime * 3600)` set the
latch and fire the goal notification path once.  Returns the new latch value
and whether the goal signal fired on this evaluation. -/
def goalCheck (goalAchieved : Bool) (totalFocusTime goalTime : Int) :
    Bool × Bool :=
  if goalAchieved = false ∧ goalTime * 3600 ≤ totalFocusTime then (true, true)
  else (goalAchieved, false)

/-- Civil date from a day number counted from 1970-01-01 (proleptic Gregorian,
the calendar both `Date.prototype.toISOString` and the local date getters
realise).  Returns `(year, month, day)`. -/
def civilFromDays (z0 : Int) : Int × Int × Int :=
  let z := z0 + 719468
  let era := Int.fdiv z 146097
  let doe := z - era * 146097
  let yoe := Int.fdiv (doe - Int.fdiv doe 1460 + Int.fdiv doe 36524
    - Int.fdiv doe 146096) 365
  let y := yoe + era * 400
  let doy := doe - (365 * yoe + Int.fdiv yoe 4 - Int.fdiv yoe 100)
  let mp := Int.fdiv (5 * doy + 2) 153
  let d := doy - Int.fdiv (153 * mp + 2) 5 + 1
  let m := mp + (if mp < 10 then 3 else -9)
  (if m ≤ 2 then y + 1 else y, m, d)

/-- `getTodayDate` (lines 39-42): `new Date().toISOString().split('T')[0]`.
`toISOString` renders the instant in UTC, so the `YYYY-MM-DD` key it yields
for an instant `ms` is the civil date of the UTC day number
`floor(ms / 86400000)`. -/
def getTodayDateKey (ms : Int) : Int × Int × Int :=
  civilFromDays (Int.fdiv ms 86400000)

/-- The calendar's `getDateKey` (lines 907-912) builds its `YYYY-MM-DD` key
from `getFullYear` / `getMonth` / `getDate` of a local `Date`, i.e. from the
civil date in the host timezone.  For a locale at a fixed UTC offset of
`offsetMinutes`, the local civil date of instant `ms` is the civil date of
day number `floor((ms + offsetMinutes * 60000) / 86400000)`. -/
def getDateKeyLocal (ms offsetMinutes : Int) : Int × Int × Int :=
  civilFromDays (Int.fdiv (ms + offsetMinutes * 60000) 86400000)

/-- All three configured durations are non-negative. -/
def settingsNonneg (ts : TimerSettings) : Prop :=
  0 ≤ ts.focus ∧ 0 ≤ ts.shortBreak ∧ 0 ≤ ts.longBreak

instance (ts : TimerSettings) : Decidable (settingsNonneg ts) := by
  unfold settingsNonneg; infer_instance

/-- States of `App` reachable through the modelled operations, starting from
the `useState` initialisers with non-negative configured durations and
admitting only settings updates whose durations are non-negative. -/
inductive Reachable : AppState → Prop where
  | init (ts : TimerSettings) (count total : Int) (ga : Bool)
      (h : settingsNonneg ts) : Reachable (initState ts count total ga)
  | visibility (s : AppState) (now : Int) (h : Reachable s) :
      Reachable (handleVisibilityChange s now).1
  | complete (s : AppState) (now : Int) (h : Reachable s) :
      Reachable (handleTimerComplete s s now).1
  | pause (s : AppState) (h : Reachable s) : Reachable (pauseTimer s)
  | resume (s : AppState) (now : Int) (h : Reachable s) :
      Reachable (resumeTimer s now)
  | reset (s : AppState) (h : Reachable s) : Reachable (resetTimer s)
  | switch (s : AppState) (m : TimerMode) (auto : Bool) (now : Int)
      (h : Reachable s) : Reachable (switchMode s m auto now)
  | update (s : AppState) (ns : TimerSettings) (h : Reachable s)
      (hns : settingsNonneg ns) : Reachable (updateSettings s ns)
  | focusAccum (s : AppState) (d : Int) (h : Reachable s) :
      Reachable { s with totalFocusTime := s.totalFocusTime + d }
  | goal (s : AppState) (h : Reachable s) :
      Reachable { s with goalAchieved :=
        (goalCheck s.goalAchieved s.totalFocusTime s.settings.goalTime).1 }

/-- C1: for every configured duration `d > 0`, anchor `t` and `e ≥ 0`
milliseconds of elapsed wall-clock time, the remaining time evaluated at
`now = t + e` is `max 0 (d - floor (e / 1000))`; and the `timeLeft` produced
by an evaluation of the visibility/poll handler on a running state does not
depend on the `timeLeft` any earlier polls left behind. -/
theorem C1_remaining_pure_formula :
    (∀ d t e : Int, 0 < d → 0 ≤ e →
      remaining d t (t + e) = max 0 (d - Int.fdiv e 1000)) ∧
    (∀ (s : AppState) (a now x : Int), s.isRunning = true →
      s.startTime = some a →
      ((handleVisibilityChange { s with timeLeft := x } now).1).timeLeft =
        ((handleVisibilityChange s now).1).timeLeft) := by
  constructor
  · intro d t e _ _
    simp [remaining]
  · intro s a now x h1 h2
    simp [handleVisibilityChange, h1, h2]
    split <;> simp [handleTimerComplete, switchModeCore]

/-- C1 witness: the formula instantiated at duration 1500 s, anchor 0 and
5500 ms elapsed, where both sides evaluate to 1495. -/
theorem C1_witness :
    remaining 1500 0 (0 + 5500) = max 0 (1500 - Int.fdiv 5500 1000) :=
  C1_remaining_pure_formula.1 1500 0 5500 (by decide) (by decide)

/-- C7 counterexample: with duration 1500 s and anchor 0, the remaining time
was 1500 at `now = 0`, yet after the clock is set back five seconds
(`now = -5000`) the code computes 1505 — it exceeds the last known value
instead of being clamped to it. -/
theorem C7_counterexample :
    remaining 1500 0 0 = 1500 ∧ remaining 1500 0 (-5000) = 1505 := by decide

/-- C7 (amended): the computed remaining time is never negative, but when
`now` is strictly before the anchor it is not clamped to its last known
value: it strictly exceeds the configured duration (and hence every value a
running countdown could previously have shown). -/
theorem C7_clock_backward_overshoots :
    (∀ d t now : Int, 0 ≤ remaining d t now) ∧
    (∀ d t now : Int, now < t → 0 ≤ d → d < remaining d t now) := by
  constructor
  · intro d t now
    exact le_max_left 0 _
  · intro d t now hlt hd
    have hneg : Int.fdiv (now - t) 1000 < 0 :=
      Int.fdiv_neg' (by omega) (by norm_num)
    have : d < d - Int.fdiv (now - t) 1000 := by omega
    calc d < d - Int.fdiv (now - t) 1000 := this
      _ ≤ remaining d t now := le_max_right 0 _

/-- C7 witness: at duration 1500, anchor 0 and the clock set back to -5000,
the overshoot theorem applies and the computed value 1505 exceeds 1500. -/
theorem C7_witness : (1500 : Int) < remaining 1500 0 (-5000) :=
  C7_clock_backward_overshoots.2 1500 0 (-5000) (by decide) (by decide)

/-- C8: pausing freezes the remaining seconds in `pausedTime` and clears the
anchor; resuming at the same instant `now` re-anchors at
`now - (initialTime - timeLeft) * 1000`, and the remaining time recomputed
from that anchor at `now` equals the remaining time before the pause. -/
theorem C8_pause_resume_round_trip (s : AppState) (now : Int)
    (h : 0 ≤ s.timeLeft) :
    (pauseTimer s).pausedTime = s.timeLeft ∧
    (pauseTimer s).startTime = none ∧
    (resumeTimer (pauseTimer s) now).startTime
      = some (now - (s.initialTime - s.timeLeft) * 1000) ∧
    remaining (resumeTimer (pauseTimer s) now).initialTime
      (now - (s.initialTime - s.timeLeft) * 1000) now = s.timeLeft := by
  refine ⟨rfl, rfl, rfl, ?_⟩
  have h1 : now - (now - (s.initialTime - s.timeLeft) * 1000)
      = (s.initialTime - s.timeLeft) * 1000 := by ring
  simp only [remaining, resumeTimer, pauseTimer, h1]
  rw [Int.mul_fdiv_cancel _ (by norm_num)]
  omega

/-- C8 witness: from the initial state (25-minute focus, 1500 s remaining),
pause followed by resume at instant 999 recomputes exactly 1500 s. -/
theorem C8_witness :
    remaining
      (resumeTimer (pauseTimer (initState DEFAULT_SETTINGS 0 0 false)) 999).initialTime
      (999 - ((initState DEFAULT_SETTINGS 0 0 false).initialTime
        - (initState DEFAULT_SETTINGS 0 0 false).timeLeft) * 1000) 999
      = (initState DEFAULT_SETTINGS 0 0 false).timeLeft :=
  (C8_pause_resume_round_trip (initState DEFAULT_SETTINGS 0 0 false) 999
    (by decide)).2.2.2

/-- A concrete focus-mode state: the initial state of `App` under the default
settings with no persisted history. -/
def freshFocusState : AppState := initState DEFAULT_SETTINGS 0 0 false

/-- C2 counterexample: invoking `handleTimerComplete` twice from the same
stale render closure (both observing the pre-switch state) fires the
completion notification path on each invocation — two notifications, not
one — even though the final `pomodoroCount` is incremented only once. -/
theorem C2_counterexample :
    (handleTimerComplete freshFocusState freshFocusState 0).2
      + (handleTimerComplete freshFocusState
          (handleTimerComplete freshFocusState freshFocusState 0).1 0).2 = 2 ∧
    ((handleTimerComplete freshFocusState
        (handleTimerComplete freshFocusState freshFocusState 0).1 0).1).pomodoroCount
      = 1 := by decide

/-- C2 (amended): `handleTimerComplete` has no already-handled latch.  A
second invocation from the same stale closure leaves exactly one effective
CycleCounter increment (both invocations assign the absolute value
`snapshot.pomodoroCount + 1`), but the completion notification fires once per
invocation, i.e. twice in total. -/
theorem C2_double_completion (s store : AppState) (now : Int)
    (h : s.mode = TimerMode.focus) :
    ((handleTimerComplete s (handleTimerComplete s store now).1 now).1).pomodoroCount
      = s.pomodoroCount + 1 ∧
    (handleTimerComplete s store now).2
      + (handleTimerComplete s (handleTimerComplete s store now).1 now).2 = 2 := by
  constructor
  · simp [handleTimerComplete, switchModeCore, h]
    split <;> rfl
  · rfl

/-- C2 witness: the amended statement at the fresh focus state. -/
theorem C2_witness :
    ((handleTimerComplete freshFocusState
        (handleTimerComplete freshFocusState freshFocusState 5).1 5).1).pomodoroCount
      = freshFocusState.pomodoroCount + 1 :=
  (C2_double_completion freshFocusState freshFocusState 5 rfl).1

/-- C3: completing a countdown in focus mode increments the counter and
routes to `longBreak` with `autoStartBreaks` exactly when the new count is
divisible by 4, else to `shortBreak` with `autoStartBreaks`; completing in
either break mode routes to `focus` with `autoStartFocus`; concretely, the
completed-focus counts 1, 2, 3, 4 route to short, short, short, long. -/
theorem C3_completion_routing :
    (∀ (s : AppState) (now : Int), s.mode = TimerMode.focus →
      ((handleTimerComplete s s now).1).pomodoroCount = s.pomodoroCount + 1 ∧
      ((handleTimerComplete s s now).1).mode
        = (if (s.pomodoroCount + 1) % 4 = 0 then TimerMode.longBreak
           else TimerMode.shortBreak) ∧
      ((handleTimerComplete s s now).1).isRunning
        = s.settings.autoStartBreaks) ∧
    (∀ (s : AppState) (now : Int), s.mode ≠ TimerMode.focus →
      ((handleTimerComplete s s now).1).mode = TimerMode.focus ∧
      ((handleTimerComplete s s now).1).isRunning
        = s.settings.autoStartFocus) ∧
    ((handleTimerComplete (initState DEFAULT_SETTINGS 0 0 false)
        (initState DEFAULT_SETTINGS 0 0 false) 0).1).mode
      = TimerMode.shortBreak ∧
    ((handleTimerComplete (initState DEFAULT_SETTINGS 1 0 false)
        (initState DEFAULT_SETTINGS 1 0 false) 0).1).mode
      = TimerMode.shortBreak ∧
    ((handleTimerComplete (initState DEFAULT_SETTINGS 2 0 false)
        (initState DEFAULT_SETTINGS 2 0 false) 0).1).mode
      = TimerMode.shortBreak ∧
    ((handleTimerComplete (initState DEFAULT_SETTINGS 3 0 false)
        (initState DEFAULT_SETTINGS 3 0 false) 0).1).mode
      = TimerMode.longBreak := by
  refine ⟨?_, ?_, by decide, by decide, by decide, by decide⟩
  · intro s now h
    refine ⟨?_, ?_, ?_⟩ <;>
      · simp [handleTimerComplete, switchModeCore, h]
        split <;> rfl
  · intro s now h
    constructor <;> simp [handleTimerComplete, switchModeCore, h]

/-- C3 witness: the focus branch of the routing theorem at a concrete state
with three completed sessions. -/
theorem C3_witness :
    ((handleTimerComplete (initState DEFAULT_SETTINGS 3 0 false)
        (initState DEFAULT_SETTINGS 3 0 false) 7).1).pomodoroCount
      = (initState DEFAULT_SETTINGS 3 0 false).pomodoroCount + 1 :=
  (C3_completion_routing.1 (initState DEFAULT_SETTINGS 3 0 false) 7 rfl).1

/-- C5: the goal signal is a one-shot.  While the latch is set no evaluation
fires; an evaluation with the latch clear and the goal reached sets the latch
and fires exactly once; concretely with `goalHours = 1`, totals 3599, 3600,
and a later 3700 yield no signal, one signal, and no further signal; and a
settings update that changes `goalTime` clears the latch. -/
theorem C5_goal_one_shot :
    (∀ total gt : Int, goalCheck true total gt = (true, false)) ∧
    (∀ (ga : Bool) (total gt : Int), ga = false → gt * 3600 ≤ total →
      goalCheck ga total gt = (true, true)) ∧
    goalCheck false 3599 1 = (false, false) ∧
    goalCheck false 3600 1 = (true, true) ∧
    goalCheck (goalCheck false 3600 1).1 3700 1 = (true, false) ∧
    (∀ (s : AppState) (ns : TimerSettings),
      ns.goalTime ≠ s.settings.goalTime →
      (updateSettings s ns).goalAchieved = false) := by
  refine ⟨?_, ?_, by decide, by decide, by decide, ?_⟩
  · intro total gt
    simp [goalCheck]
  · intro ga total gt h1 h2
    simp [goalCheck, h1, h2]
  · intro s ns h
    simp [updateSettings, h]

/-- C5 witness: the crossing branch at the latch clear, total 3600 and goal
1 hour, and the latch-clearing branch at a goal change from 12 to 2 hours. -/
theorem C5_witness :
    goalCheck false 3600 1 = (true, true) ∧
    (updateSettings freshFocusState
      { DEFAULT_SETTINGS with goalTime := 2 }).goalAchieved = false :=
  ⟨C5_goal_one_shot.2.1 false 3600 1 rfl (by decide),
   C5_goal_one_shot.2.2.2.2.2 freshFocusState
     { DEFAULT_SETTINGS with goalTime := 2 } (by decide)⟩

/-- A settings record with a non-positive (zero) focus duration. -/
def zeroFocusSettings : TimerSettings := { DEFAULT_SETTINGS with focus := 0 }

/-- C6 counterexample: `updateSettings` accepts a settings record whose focus
duration is non-positive — the update is applied and the prior valid settings
are replaced, not retained. -/
theorem C6_counterexample :
    zeroFocusSettings.focus ≤ 0 ∧
    (updateSettings freshFocusState zeroFocusSettings).settings
      = zeroFocusSettings ∧
    (updateSettings freshFocusState zeroFocusSettings).settings
      ≠ DEFAULT_SETTINGS := by decide

/-- C6 (amended): `updateSettings` performs no validation at the
settings-update boundary: every update, including one whose durations or goal
are non-positive, unconditionally replaces the prior settings. -/
theorem C6_no_validation (s : AppState) (ns : TimerSettings) :
    (updateSettings s ns).settings = ns := rfl

/-- A settings record that only changes the focus duration to 30 minutes. -/
def thirtyFocusSettings : TimerSettings := { DEFAULT_SETTINGS with focus := 30 }

/-- C9 counterexample: applying a settings update while a session is running
leaves `isRunning = true` — the update does not reset the running flag to
false as claimed. -/
theorem C9_counterexample :
    (resumeTimer freshFocusState 0).isRunning = true ∧
    (updateSettings (resumeTimer freshFocusState 0)
      thirtyFocusSettings).isRunning = true := by decide

/-- C9 (amended): `updateSettings` immediately reloads the configured
duration for the current mode into `timeLeft`, `initialTime` and
`pausedTime`, clears the anchor (discarding in-progress elapsed time), but
leaves the `running` flag unchanged rather than resetting it to false. -/
theorem C9_update_reloads_duration (s : AppState) (ns : TimerSettings) :
    (updateSettings s ns).timeLeft = settingsFor ns s.mode * 60 ∧
    (updateSettings s ns).initialTime = settingsFor ns s.mode * 60 ∧
    (updateSettings s ns).pausedTime = settingsFor ns s.mode * 60 ∧
    (updateSettings s ns).startTime = none ∧
    (updateSettings s ns).isRunning = s.isRunning :=
  ⟨rfl, rfl, rfl, rfl, rfl⟩

/-- C4: the two date-key functions disagree about the day boundary.
`getTodayDate` (used for the ledger and the "today" lookup) keys by the UTC
calendar day via `toISOString`, while the calendar's `getDateKey` keys by the
local calendar day.  At instant 85000000 ms (1970-01-01 23:36:40 UTC) in a
UTC+9 locale the ledger key is 1970-01-01 but the local date — and hence the
calendar's key for that moment — is 1970-01-02. -/
theorem C4_date_key_boundary_mismatch :
    getTodayDateKey 85000000 = (1970, 1, 1) ∧
    getDateKeyLocal 85000000 540 = (1970, 1, 2) ∧
    getTodayDateKey 85000000 ≠ getDateKeyLocal 85000000 540 := by decide

/-- The inductive invariant behind C10: `timeLeft` and `initialTime` are
non-negative and all configured durations are non-negative. -/
def timerInv (s : AppState) : Prop :=
  0 ≤ s.timeLeft ∧ 0 ≤ s.initialTime ∧ settingsNonneg s.settings

lemma settingsFor_nonneg {ts : TimerSettings} (m : TimerMode)
    (h : settingsNonneg ts) : 0 ≤ settingsFor ts m := by
  obtain ⟨h1, h2, h3⟩ := h
  cases m <;> simpa [settingsFor]

lemma switchModeCore_inv {settings : TimerSettings} (st : AppState)
    (m : TimerMode) (auto : Bool) (now : Int)
    (hs : settingsNonneg settings) (hst : settingsNonneg st.settings) :
    timerInv (switchModeCore settings st m auto now) := by
  exact ⟨mul_nonneg (settingsFor_nonneg m hs) (by norm_num),
         mul_nonneg (settingsFor_nonneg m hs) (by norm_num), hst⟩

lemma handleTimerComplete_inv (snapshot store : AppState) (now : Int)
    (hs : settingsNonneg snapshot.settings)
    (hst : settingsNonneg store.settings) :
    timerInv (handleTimerComplete snapshot store now).1 := by
  unfold handleTimerComplete
  dsimp only
  split
  · split
    · exact switchModeCore_inv _ _ _ _ hs hst
    · exact switchModeCore_inv _ _ _ _ hs hst
  · exact switchModeCore_inv _ _ _ _ hs hst

lemma reachable_timerInv {s : AppState} (h : Reachable s) : timerInv s := by
  induction h with
  | init ts count total ga hts =>
    exact ⟨mul_nonneg hts.1 (by norm_num), mul_nonneg hts.1 (by norm_num), hts⟩
  | visibility s now _ ih =>
    obtain ⟨h1, h2, h3⟩ := ih
    unfold handleVisibilityChange
    dsimp only
    split
    · split
      · split
        · exact handleTimerComplete_inv _ _ _ h3 h3
        · exact ⟨le_max_left 0 _, h2, h3⟩
      · exact ⟨h1, h2, h3⟩
    · exact ⟨h1, h2, h3⟩
  | complete s now _ ih => exact handleTimerComplete_inv _ _ _ ih.2.2 ih.2.2
  | pause s _ ih => exact ⟨ih.1, ih.2.1, ih.2.2⟩
  | resume s now _ ih => exact ⟨ih.1, ih.2.1, ih.2.2⟩
  | reset s _ ih => exact ⟨ih.2.1, ih.2.1, ih.2.2⟩
  | switch s m auto now _ ih => exact switchModeCore_inv _ _ _ _ ih.2.2 ih.2.2
  | update s ns _ hns ih =>
    exact ⟨mul_nonneg (settingsFor_nonneg s.mode hns) (by norm_num),
           mul_nonneg (settingsFor_nonneg s.mode hns) (by norm_num), hns⟩
  | focusAccum s d _ ih => exact ⟨ih.1, ih.2.1, ih.2.2⟩
  | goal s _ ih => exact ⟨ih.1, ih.2.1, ih.2.2⟩

/-- A settings record with a negative focus duration. -/
def negFocusSettings : TimerSettings := { DEFAULT_SETTINGS with focus := -1 }

/-- C10 counterexample: `updateSettings` is one of the operations the claim
names, yet applied with a negative focus duration — which the code accepts,
having no validation — it leaves `timeLeft = -60 < 0`. -/
theorem C10_counterexample :
    (updateSettings freshFocusState negFocusSettings).timeLeft = -60 ∧
    ¬ 0 ≤ (updateSettings freshFocusState negFocusSettings).timeLeft := by
  decide

/-- C10 (amended): in every state reachable from the initial state through
the modelled operations — polls/visibility recomputation, completion,
pause, resume, reset, mode switches, focus accumulation, goal evaluation,
and settings updates whose configured durations are non-negative —
`timeLeft` is non-negative. -/
theorem C10_timeLeft_nonneg (s : AppState) (h : Reachable s) :
    0 ≤ s.timeLeft :=
  (reachable_timerInv h).1

/-- C10 witness: the initial state under the default settings is reachable
and its `timeLeft` (1500) is non-negative. -/
theorem C10_witness : 0 ≤ (initState DEFAULT_SETTINGS 0 0 false).timeLeft :=
  C10_timeLeft_nonneg (initState DEFAULT_SETTINGS 0 0 false)
    (Reachable.init DEFAULT_SETTINGS 0 0 false (by decide))
